import Mathlib

/-!
Shallow embedding of the bambu-assistant print-job pipeline.

Each definition transliterates one function of the repository:
  src/bridge/main.py            (printer telemetry snapshot, bridge endpoints)
  src/backend/app/services/bridge.py    (BridgeClient.is_ready_to_print)
  src/backend/app/services/meshy.py     (polling loops of generate_model, wait_for_task)
  src/backend/app/services/converter.py (scale_to_size, validate_printability)
  src/backend/app/api/jobs.py           (start_print, cancel_job endpoints)
  src/backend/app/agents/assistant.py   (_execute_tool, _update_progress)
Network and wall-clock effects are made explicit: the outcome of an awaited
call is passed in as a parameter, and side effects issued to the bridge are
returned as an explicit call trace.
-/

/-- Printer status snapshot: the module-level printer_status dict of
src/bridge/main.py, also the PrinterStatus dataclass the backend builds from
the /status response (services/bridge.py, get_status). -/
structure PrinterStatus where
  connected : Bool
  state : String
  progress : Int
  remaining_minutes : Int
  job_name : Option String
  nozzle_temp : ℚ
  bed_temp : ℚ
  chamber_temp : ℚ
  last_update : Option String
deriving Repr, DecidableEq

/-- Initial snapshot value of src/bridge/main.py (lines 32-42). -/
def initialPrinterStatus : PrinterStatus :=
  { connected := false
    state := "unknown"
    progress := 0
    remaining_minutes := 0
    job_name := none
    nozzle_temp := 0
    bed_temp := 0
    chamber_temp := 0
    last_update := none }

/-- The "print" sub-dictionary of a parsed telemetry payload; every key is
optional, matching print_data.get(...) in on_message (src/bridge/main.py). -/
structure PrintPayload where
  gcode_state : Option String
  mc_percent : Option Int
  mc_remaining_time : Option Int
  subtask_name : Option String
  nozzle_temper : Option ℚ
  bed_temper : Option ℚ
  chamber_temper : Option ℚ
deriving Repr, DecidableEq

/-- A payload with every field absent. -/
def emptyPayload : PrintPayload :=
  { gcode_state := none, mc_percent := none, mc_remaining_time := none
    subtask_name := none, nozzle_temper := none, bed_temper := none
    chamber_temper := none }

/-- Lowercasing of a string, character by character: the str.lower() call of
on_message.  Stated over the character list so that it evaluates by kernel
reduction (String.toLower itself recurses on a utf8 position measure). -/
def lowercase (s : String) : String :=
  String.mk (s.data.map Char.toLower)

/-- Telemetry handler on_message of src/bridge/main.py (lines 78-96).
The argument print_data is none when the message failed to parse or its
"print" entry is missing or empty (a falsy dict skips the update); otherwise
it holds the optional fields of the non-empty print dict.  The now argument
stands for datetime.utcnow().isoformat().  The handler builds a full update
dict, reading each key with a default, and applies it with dict.update. -/
def on_message (st : PrinterStatus) (print_data : Option PrintPayload)
    (now : String) : PrinterStatus :=
  match print_data with
  | none => st
  | some d =>
      { st with
        state := lowercase (d.gcode_state.getD "unknown")
        progress := d.mc_percent.getD 0
        remaining_minutes := Int.fdiv (d.mc_remaining_time.getD 0) 60
        job_name := d.subtask_name
        nozzle_temp := d.nozzle_temper.getD 0
        bed_temp := d.bed_temper.getD 0
        chamber_temp := d.chamber_temper.getD 0
        last_update := some now }

/-- BridgeClient.is_ready_to_print of src/backend/app/services/bridge.py
(lines 156-162): the argument is the outcome of the awaited get_status call,
Except.error when it raised BridgeError. -/
def is_ready_to_print (status_result : Except String PrinterStatus) : Bool :=
  match status_result with
  | .error _ => false
  | .ok s => s.connected && (s.state = "idle" || s.state = "finish" || s.state = "failed")

/-- A snapshot of a connected printer whose state is "running", with live
temperature readings, as after a full status report. -/
def runningStatus : PrinterStatus :=
  { connected := true
    state := "running"
    progress := 42
    remaining_minutes := 90
    job_name := some "dragon"
    nozzle_temp := 220
    bed_temp := 60
    chamber_temp := 35
    last_update := some "t0" }

/-- A telemetry print payload carrying only a nozzle-temperature field. -/
def nozzleOnlyPayload : PrintPayload :=
  { emptyPayload with nozzle_temper := some 215 }

/-- C1 counterexample: processing an event that carries only a
nozzle-temperature field does not leave the absent fields at their previous
values: on a snapshot with state "running" and bed temperature 60, the
handler resets state to "unknown", bed and chamber temperatures to 0,
progress to 0, and clears the job name, while updating the nozzle
temperature.  This refutes the merge-not-replace behaviour of the claim. -/
theorem on_message_overwrites_absent_fields :
    (on_message runningStatus (some nozzleOnlyPayload) "t1").nozzle_temp = 215 ∧
    runningStatus.state = "running" ∧
    (on_message runningStatus (some nozzleOnlyPayload) "t1").state = "unknown" ∧
    runningStatus.bed_temp = 60 ∧
    (on_message runningStatus (some nozzleOnlyPayload) "t1").bed_temp = 0 ∧
    runningStatus.chamber_temp = 35 ∧
    (on_message runningStatus (some nozzleOnlyPayload) "t1").chamber_temp = 0 ∧
    (on_message runningStatus (some nozzleOnlyPayload) "t1").progress = 0 ∧
    (on_message runningStatus (some nozzleOnlyPayload) "t1").job_name = none := by
  refine ⟨by decide, by decide, by decide, by decide, by decide, by decide, by decide,
    by decide, by decide⟩

/-- C1 amended: processing an event with a non-empty print payload replaces
every print-derived snapshot field, substituting a default for each absent
field (state "unknown", numeric fields 0, job name cleared); only the
connected flag survives, and the last-update stamp is refreshed.  An event
whose print payload is empty, absent, or unparseable leaves the snapshot
unchanged. -/
theorem on_message_replaces_fields (st : PrinterStatus) (d : PrintPayload)
    (now : String) :
    on_message st none now = st ∧
    (on_message st (some d) now).connected = st.connected ∧
    (on_message st (some d) now).state = lowercase (d.gcode_state.getD "unknown") ∧
    (on_message st (some d) now).progress = d.mc_percent.getD 0 ∧
    (on_message st (some d) now).remaining_minutes
      = Int.fdiv (d.mc_remaining_time.getD 0) 60 ∧
    (on_message st (some d) now).job_name = d.subtask_name ∧
    (on_message st (some d) now).nozzle_temp = d.nozzle_temper.getD 0 ∧
    (on_message st (some d) now).bed_temp = d.bed_temper.getD 0 ∧
    (on_message st (some d) now).chamber_temp = d.chamber_temper.getD 0 ∧
    (on_message st (some d) now).last_update = some now := by
  refine ⟨rfl, rfl, rfl, rfl, rfl, rfl, rfl, rfl, rfl, rfl⟩

/-- A snapshot of a connected printer that has just finished a print: the
Bambu firmware reports gcode_state "FINISH", which the bridge lowercases to
"finish". -/
def finishStatus : PrinterStatus :=
  { runningStatus with state := "finish", progress := 100 }

/-- A snapshot whose state is the spelling "finished" used by the claim. -/
def finishedStatus : PrinterStatus :=
  { runningStatus with state := "finished" }

/-- C9 counterexample: the readiness check accepts the state string "finish",
not "finished".  A connected printer with state "finished" is reported not
ready, although the claim's set contains finished; a connected printer with
state "finish" is reported ready, although "finish" is outside the claim's
set. -/
theorem is_ready_to_print_finish_spelling :
    finishedStatus.connected = true ∧
    finishedStatus.state = "finished" ∧
    is_ready_to_print (.ok finishedStatus) = false ∧
    finishStatus.connected = true ∧
    finishStatus.state = "finish" ∧
    is_ready_to_print (.ok finishStatus) = true := by
  refine ⟨rfl, rfl, ?_, rfl, rfl, ?_⟩ <;> rfl

/-- C9 amended: the readiness check returns true iff the printer is connected
and its state is one of idle, finish, failed (the string the printer reports
after completing a print is "finish"); when the status request itself fails
with a bridge error, the check returns false. -/
theorem is_ready_to_print_spec (s : PrinterStatus) (msg : String) :
    (is_ready_to_print (.ok s) = true ↔
      s.connected = true ∧ s.state ∈ (["idle", "finish", "failed"] : List String)) ∧
    is_ready_to_print (.error msg) = false := by
  constructor
  · simp [is_ready_to_print]
    tauto
  · rfl

/-- In-memory job record: the loosely-typed job dict stored in
PrintAssistant.jobs (src/backend/app/agents/assistant.py, _generate_model),
restricted to the fields the code reads or writes. -/
structure Job where
  prompt : String
  style : String
  target_size_mm : ℚ
  status : String
  progress : Nat
  model_url : Option String
  thumbnail_url : Option String
  error : Option String
  print_started_at : Option String
  cancelled_at : Option String
  created_at : String
deriving Repr, DecidableEq

/-- Job store: the assistant.jobs dict, keyed by job id. -/
abbrev JobStore : Type := List (String × Job)

/-- Dictionary read assistant.jobs.get(job_id). -/
def lookupJob : JobStore → String → Option Job
  | [], _ => none
  | (k, v) :: rest, id => if k = id then some v else lookupJob rest id

/-- In-place mutation of the job dict stored under an id (the Python code
mutates the dict object retrieved from assistant.jobs). -/
def setJob : JobStore → String → Job → JobStore
  | [], _, _ => []
  | (k, v) :: rest, id, j => if k = id then (k, j) :: rest else (k, v) :: setJob rest id j

/-- Call made to the bridge client during an endpoint, recorded as an
explicit effect trace. -/
inductive BridgeCall
  | check_ready
  | stop_command
  | upload_artifact
  | start_command
deriving Repr, DecidableEq

/-- HTTP error response raised via HTTPException. -/
structure HttpError where
  code : Nat
  detail : String
deriving Repr, DecidableEq

/-- Body of the successful PrintResponse of the start-print endpoint. -/
structure PrintResponse where
  success : Bool
  message : String
deriving Repr, DecidableEq

instance {ε α : Type} [DecidableEq ε] [DecidableEq α] : DecidableEq (Except ε α) :=
  fun x y =>
    match x, y with
    | .ok a, .ok b =>
        if h : a = b then isTrue (by rw [h])
        else isFalse (by intro hc; cases hc; exact h rfl)
    | .ok _, .error _ => isFalse (by intro hc; cases hc)
    | .error _, .ok _ => isFalse (by intro hc; cases hc)
    | .error e, .error f =>
        if h : e = f then isTrue (by rw [h])
        else isFalse (by intro hc; cases hc; exact h rfl)

/-- Outcome of one call to the start-print endpoint: its HTTP result, the job
store afterwards, and the bridge calls it made. -/
structure StartPrintOutcome where
  response : Except HttpError PrintResponse
  jobs : JobStore
  calls : List BridgeCall
deriving Repr, DecidableEq

/-- Endpoint start_print of src/backend/app/api/jobs.py (lines 118-147).
The ready argument is the outcome of the awaited
bridge.is_ready_to_print() call: ok of its boolean, or error when it raised
BridgeError; now stands for datetime.utcnow().isoformat().  The code checks
the job exists and is ready, checks the printer, and then only sets status
to printing and records print_started_at; the production comment notes that
conversion, upload and the printer start command are not performed. -/
def start_print (jobs : JobStore) (job_id : String)
    (ready : Except String Bool) (now : String) : StartPrintOutcome :=
  match lookupJob jobs job_id with
  | none => ⟨.error ⟨404, "Job not found"⟩, jobs, []⟩
  | some job =>
    if job.status ≠ "ready" then
      ⟨.error ⟨400, "Job not ready: " ++ job.status⟩, jobs, []⟩
    else
      match ready with
      | .error e => ⟨.error ⟨503, e⟩, jobs, [.check_ready]⟩
      | .ok false => ⟨.error ⟨400, "Printer not ready"⟩, jobs, [.check_ready]⟩
      | .ok true =>
          ⟨.ok ⟨true, "Print started"⟩,
           setJob jobs job_id
             { job with status := "printing", print_started_at := some now },
           [.check_ready]⟩

/-- Outcome of one call to the cancel endpoint. -/
structure CancelOutcome where
  response : Except HttpError Bool
  jobs : JobStore
  calls : List BridgeCall
deriving Repr, DecidableEq

/-- Endpoint cancel_job of src/backend/app/api/jobs.py (lines 150-170).
The stop_result argument is the outcome of the awaited bridge.stop_print()
call, made only when the job status is printing.  Any found job, whatever
its status, is then set to cancelled with a cancelled_at stamp. -/
def cancel_job (jobs : JobStore) (job_id : String)
    (stop_result : Except String Unit) (now : String) : CancelOutcome :=
  match lookupJob jobs job_id with
  | none => ⟨.error ⟨404, "Job not found"⟩, jobs, []⟩
  | some job =>
    if job.status = "printing" then
      match stop_result with
      | .error e => ⟨.error ⟨503, e⟩, jobs, [.stop_command]⟩
      | .ok _ =>
          ⟨.ok true,
           setJob jobs job_id
             { job with status := "cancelled", cancelled_at := some now },
           [.stop_command]⟩
    else
      ⟨.ok true,
       setJob jobs job_id
         { job with status := "cancelled", cancelled_at := some now },
       []⟩

/-- Reading a key back after setJob on that key returns the new record,
provided the key was present. -/
theorem lookupJob_setJob (jobs : JobStore) (id : String) (j0 j : Job)
    (h : lookupJob jobs id = some j0) :
    lookupJob (setJob jobs id j) id = some j := by
  induction jobs with
  | nil => simp [lookupJob] at h
  | cons p rest ih =>
      obtain ⟨k, v⟩ := p
      by_cases hk : k = id
      · simp [lookupJob, setJob, hk]
      · simp only [lookupJob, setJob, if_neg hk] at h ⊢
        exact ih h

/-- A job whose generation has completed: status ready, assets stored, as
written by _run_generation on success. -/
def readyJob : Job :=
  { prompt := "a small dragon"
    style := "cartoon"
    target_size_mm := 150
    status := "ready"
    progress := 100
    model_url := some "https://assets/dragon.glb"
    thumbnail_url := some "https://assets/dragon.png"
    error := none
    print_started_at := none
    cancelled_at := none
    created_at := "2026-01-01T00:00:00" }

/-- A job whose generation failed: status failed with a stored error, as
written by _run_generation on MeshyError. -/
def failedJob : Job :=
  { readyJob with status := "failed", progress := 30, error := some "boom" }

/-- A store holding one ready job. -/
def demoJobs : JobStore := [("j1", readyJob)]

/-- A store holding one failed (terminal) job. -/
def failedJobs : JobStore := [("j2", failedJob)]

/-- C5: the start-print endpoint mutates the store only when the readiness
check returned true: a successful response implies the check returned true,
any mutation of the store implies the check returned true, and a false
readiness snapshot yields an error response with the store unchanged (in
particular a READY job remains READY). -/
theorem start_print_requires_ready (jobs : JobStore) (job_id : String)
    (ready : Except String Bool) (now : String) :
    ((start_print jobs job_id ready now).jobs ≠ jobs → ready = .ok true) ∧
    (∀ r, (start_print jobs job_id ready now).response = .ok r → ready = .ok true) ∧
    (ready = .ok false →
      (start_print jobs job_id ready now).jobs = jobs ∧
      ∃ e, (start_print jobs job_id ready now).response = .error e) := by
  cases hl : lookupJob jobs job_id with
  | none => simp [start_print, hl]
  | some job =>
      by_cases hs : job.status = "ready"
      · cases ready with
        | error e => simp [start_print, hl, hs]
        | ok b => cases b <;> simp [start_print, hl, hs]
      · simp [start_print, hl, hs]

/-- Witness for start_print_requires_ready: a store holding a READY job and a
non-ready printer snapshot give an unchanged store and an error response. -/
theorem start_print_requires_ready_w :
    (start_print demoJobs "j1" (.ok false) "t").jobs = demoJobs ∧
    ∃ e, (start_print demoJobs "j1" (.ok false) "t").response = .error e :=
  (start_print_requires_ready demoJobs "j1" (.ok false) "t").2.2 rfl

/-- C2 counterexample: on a READY job with a ready printer, the start-print
endpoint never passes through UPLOADING, performs no artifact upload and
issues no printer start command: the job goes directly from ready to
printing and the only bridge call made is the readiness check. -/
theorem start_print_skips_upload :
    lookupJob demoJobs "j1" = some readyJob ∧
    readyJob.status = "ready" ∧
    (start_print demoJobs "j1" (.ok true) "t").response = .ok ⟨true, "Print started"⟩ ∧
    (lookupJob (start_print demoJobs "j1" (.ok true) "t").jobs "j1").map Job.status
      = some "printing" ∧
    (lookupJob (start_print demoJobs "j1" (.ok true) "t").jobs "j1").map Job.status
      ≠ some "uploading" ∧
    (start_print demoJobs "j1" (.ok true) "t").calls = [.check_ready] ∧
    BridgeCall.upload_artifact ∉ (start_print demoJobs "j1" (.ok true) "t").calls ∧
    BridgeCall.start_command ∉ (start_print demoJobs "j1" (.ok true) "t").calls := by
  decide

/-- C2 amended: for every READY job and a ready printer, start_print
transitions the job directly to PRINTING, recording print_started_at, and
returns success; no UPLOADING transition occurs, the artifact is not handed
to the upload collaborator, and no printer start command is issued — the
readiness check is the only bridge call (conversion, upload and the start
command are left unimplemented by the endpoint). -/
theorem start_print_direct_to_printing (jobs : JobStore) (job_id : String)
    (job : Job) (now : String)
    (hfound : lookupJob jobs job_id = some job)
    (hready : job.status = "ready") :
    (start_print jobs job_id (.ok true) now).response = .ok ⟨true, "Print started"⟩ ∧
    lookupJob (start_print jobs job_id (.ok true) now).jobs job_id
      = some { job with status := "printing", print_started_at := some now } ∧
    (start_print jobs job_id (.ok true) now).calls = [.check_ready] := by
  have hset := lookupJob_setJob jobs job_id job
    { job with status := "printing", print_started_at := some now } hfound
  simp [start_print, hfound, hready, hset]

/-- Witness for start_print_direct_to_printing at the demo store. -/
theorem start_print_direct_to_printing_w :
    (start_print demoJobs "j1" (.ok true) "t").response = .ok ⟨true, "Print started"⟩ ∧
    lookupJob (start_print demoJobs "j1" (.ok true) "t").jobs "j1"
      = some { readyJob with status := "printing", print_started_at := some "t" } ∧
    (start_print demoJobs "j1" (.ok true) "t").calls = [.check_ready] :=
  start_print_direct_to_printing demoJobs "j1" readyJob "t" rfl rfl

/-- C4 counterexample: cancelling a job whose status is the terminal value
failed succeeds and mutates the record to cancelled, although the claim
permits cancellation only from the generating states or printing and
declares terminal records immutable. -/
theorem cancel_job_mutates_terminal :
    failedJob.status = "failed" ∧
    (cancel_job failedJobs "j2" (.ok ()) "t").response = .ok true ∧
    (lookupJob (cancel_job failedJobs "j2" (.ok ()) "t").jobs "j2").map Job.status
      = some "cancelled" := by
  decide

/-- C4 amended: a cancel request transitions any existing job to CANCELLED
regardless of its current status, stamping cancelled_at; for a PRINTING job
the printer stop command is issued first and on its failure the job is left
unchanged with a 503 error; terminal records are not immutable — cancel
rewrites COMPLETED, FAILED or CANCELLED records as well. -/
theorem cancel_job_any_status (jobs : JobStore) (job_id : String) (job : Job)
    (stop_result : Except String Unit) (now : String)
    (hfound : lookupJob jobs job_id = some job) :
    (job.status ≠ "printing" →
      (cancel_job jobs job_id stop_result now).response = .ok true ∧
      lookupJob (cancel_job jobs job_id stop_result now).jobs job_id
        = some { job with status := "cancelled", cancelled_at := some now } ∧
      (cancel_job jobs job_id stop_result now).calls = []) ∧
    (job.status = "printing" →
      (∀ u, stop_result = .ok u →
        (cancel_job jobs job_id stop_result now).response = .ok true ∧
        lookupJob (cancel_job jobs job_id stop_result now).jobs job_id
          = some { job with status := "cancelled", cancelled_at := some now } ∧
        (cancel_job jobs job_id stop_result now).calls = [.stop_command]) ∧
      (∀ e, stop_result = .error e →
        (cancel_job jobs job_id stop_result now).response = .error ⟨503, e⟩ ∧
        (cancel_job jobs job_id stop_result now).jobs = jobs)) := by
  have hset := lookupJob_setJob jobs job_id job
    { job with status := "cancelled", cancelled_at := some now } hfound
  by_cases hp : job.status = "printing"
  · cases stop_result with
    | error e => simp [cancel_job, hfound, hp, hset]
    | ok u => simp [cancel_job, hfound, hp, hset]
  · simp [cancel_job, hfound, hp, hset]

/-- Witness for cancel_job_any_status: cancelling the failed demo job
succeeds, rewrites its status to cancelled and makes no bridge call. -/
theorem cancel_job_any_status_w :
    (cancel_job failedJobs "j2" (.ok ()) "t").response = .ok true ∧
    lookupJob (cancel_job failedJobs "j2" (.ok ()) "t").jobs "j2"
      = some { failedJob with status := "cancelled", cancelled_at := some "t" } ∧
    (cancel_job failedJobs "j2" (.ok ()) "t").calls = [] :=
  (cancel_job_any_status failedJobs "j2" failedJob (.ok ()) "t" rfl).1 (by decide)

/-- Meshy task status values (src/backend/app/services/meshy.py, TaskStatus). -/
inductive TaskStatus
  | pending
  | in_progress
  | succeeded
  | failed
  | expired
deriving Repr, DecidableEq

/-- Meshy task view returned by get_task_status (src/backend/app/services/meshy.py). -/
structure MeshyTask where
  id : String
  status : TaskStatus
  progress : Nat
  model_glb : Option String
  thumbnail_url : Option String
  error : Option String
deriving Repr, DecidableEq

/-- One polling stage of MeshyService.generate_model
(src/backend/app/services/meshy.py, lines 221-231 and 240-255): poll the
task, break on SUCCEEDED, raise MeshyError on FAILED or EXPIRED, otherwise
sleep five seconds and poll again — with no check of elapsed time.  The
argument status_at gives the task view returned by the k-th
get_task_status call; fuel bounds the number of polls we unfold, and none
means the loop is still running after that many polls. -/
def generate_poll_loop (status_at : Nat → MeshyTask) :
    Nat → Nat → Option (Except String MeshyTask)
  | _, 0 => none
  | k, fuel + 1 =>
      let t := status_at k
      if t.status = .succeeded then some (.ok t)
      else if t.status = .failed ∨ t.status = .expired then
        some (.error ((t.error).getD "task failed"))
      else generate_poll_loop status_at (k + 1) fuel

/-- Polling loop of MeshyService.wait_for_task (src/backend/app/services/meshy.py,
lines 157-193), the unused sibling of the loops above: before the k-th poll
it compares the elapsed wall-clock time — k polls separated by
poll_interval seconds — against the timeout and raises TimeoutError once
exceeded.  Times are in whole seconds. -/
def wait_for_task_loop (status_at : Nat → MeshyTask)
    (poll_interval timeout : Nat) : Nat → Nat → Option (Except String MeshyTask)
  | _, 0 => none
  | k, fuel + 1 =>
      if timeout < k * poll_interval then some (.error "TimeoutError")
      else
        let t := status_at k
        if t.status = .succeeded then some (.ok t)
        else if t.status = .failed ∨ t.status = .expired then
          some (.error ((t.error).getD "task failed"))
        else wait_for_task_loop status_at poll_interval timeout (k + 1) fuel

/-- A generator that never reports a terminal status: every poll returns
IN_PROGRESS at fifty percent. -/
def stuckGenerator : Nat → MeshyTask :=
  fun _ =>
    { id := "task-1", status := .in_progress, progress := 50
      model_glb := none, thumbnail_url := none, error := none }

/-- C3: the polling loop used by generate_model never terminates when the
generator never reports success, failure or expiry: however many five-second
polls are unfolded — in particular far past the 61 polls that span the
claimed 300-second stage timeout — the loop is still running, so the job is
never transitioned to FAILED with a timeout error.  The 300-second bound
lives only in wait_for_task, which generate_model does not call. -/
theorem generate_poll_loop_never_times_out :
    ∀ fuel k : Nat, generate_poll_loop stuckGenerator k fuel = none := by
  intro fuel
  induction fuel with
  | zero => intro k; rfl
  | succ n ih =>
      intro k
      simpa [generate_poll_loop, stuckGenerator] using ih (k + 1)

/-- Contrast for C3: the repository's own wait_for_task loop, polling every
5 seconds with the default 300-second timeout, does stop on the same stuck
generator: it raises TimeoutError at the 62nd poll, when 305 seconds have
elapsed. -/
theorem wait_for_task_loop_times_out :
    wait_for_task_loop stuckGenerator 5 300 0 62 = some (.error "TimeoutError") := by
  decide

/-- Progress mapping _update_progress of src/backend/app/agents/assistant.py
(lines 331-339): a preview-stage percentage p becomes p / 2 (floor), any
other stage becomes 50 + p / 2. -/
def update_progress (stage : String) (percent : Nat) : Nat :=
  if stage = "preview" then percent / 2 else 50 + percent / 2

/-- Sequence of values taken by the job's progress field over one successful
generation run (generate_model driving _update_progress, then _run_generation
writing 100 on success): the initial 0 from _generate_model, the explicit
on_progress("preview", 0), the polled preview percentages, the explicit
on_progress("refine", 0), the polled refine percentages, and the final 100. -/
def progress_trace (pre re : List Nat) : List Nat :=
  (0 :: update_progress "preview" 0 :: pre.map (update_progress "preview"))
    ++ (update_progress "refine" 0 :: re.map (update_progress "refine"))
    ++ [100]

/-- C6 counterexample: when the generator reports a preview percentage of 80
and then 40 — nothing in the code or the generator interface forbids a
decreasing report — the job's progress goes 40 and then 20, so the trace is
not monotonically non-decreasing even though the job ends successfully. -/
theorem progress_trace_not_monotone :
    progress_trace [80, 40] [100] = [0, 0, 40, 20, 50, 100, 100] ∧
    ¬ List.Chain' (· ≤ ·) (progress_trace [80, 40] [100]) := by
  refine ⟨rfl, ?_⟩
  intro h
  rw [show progress_trace [80, 40] [100] = [0, 0, 40, 20, 50, 100, 100] from rfl] at h
  simp [List.chain'_cons] at h

/-- An element selected by getLast? belongs to the list. -/
theorem mem_of_getLast_opt {α : Type} {l : List α} {x : α}
    (h : x ∈ l.getLast?) : x ∈ l := by
  obtain ⟨hne, rfl⟩ := List.mem_getLast?_eq_getLast h
  exact List.getLast_mem hne

/-- An element selected by head? belongs to the list. -/
theorem mem_of_head_opt {α : Type} {l : List α} {x : α}
    (h : x ∈ l.head?) : x ∈ l := by
  rw [List.eq_cons_of_mem_head? h]
  exact List.mem_cons_self _ _

/-- C6 amended: whenever the generator's reported percentages are
non-decreasing within each stage and at most 100 — conditions the code
relies on but does not itself enforce — the job's progress trace stays
within 0 to 100 and is monotonically non-decreasing over the whole run: the
stage mapping keeps the preview stage at or below 50, starts the refine
stage at 50, and ends at 100 on success. -/
theorem progress_trace_monotone (pre re : List Nat)
    (hpre : List.Chain' (· ≤ ·) pre) (hre : List.Chain' (· ≤ ·) re)
    (hpre100 : ∀ p ∈ pre, p ≤ 100) (hre100 : ∀ p ∈ re, p ≤ 100) :
    List.Chain' (· ≤ ·) (progress_trace pre re) ∧
    ∀ q ∈ progress_trace pre re, q ≤ 100 := by
  have hf : ∀ p : Nat, update_progress "preview" p = p / 2 := fun _ => rfl
  have hg : ∀ p : Nat, update_progress "refine" p = 50 + p / 2 := fun _ => rfl
  have hmapf_le : ∀ x ∈ pre.map (update_progress "preview"), x ≤ 50 := by
    intro x hx
    obtain ⟨p, hp, rfl⟩ := List.mem_map.mp hx
    have := hpre100 p hp
    rw [hf]
    omega
  have hmapg_ge : ∀ x ∈ re.map (update_progress "refine"), 50 ≤ x := by
    intro x hx
    obtain ⟨p, hp, rfl⟩ := List.mem_map.mp hx
    rw [hg]
    omega
  have hmapg_le : ∀ x ∈ re.map (update_progress "refine"), x ≤ 100 := by
    intro x hx
    obtain ⟨p, hp, rfl⟩ := List.mem_map.mp hx
    have := hre100 p hp
    rw [hg]
    omega
  have hchainf : List.Chain' (· ≤ ·) (pre.map (update_progress "preview")) := by
    rw [List.chain'_map]
    refine hpre.imp (fun a b hab => ?_)
    rw [hf, hf]
    omega
  have hchaing : List.Chain' (· ≤ ·) (re.map (update_progress "refine")) := by
    rw [List.chain'_map]
    refine hre.imp (fun a b hab => ?_)
    rw [hg, hg]
    omega
  have hchainA : List.Chain' (· ≤ ·)
      (0 :: update_progress "preview" 0 :: pre.map (update_progress "preview")) := by
    rw [List.chain'_cons']
    refine ⟨fun y _ => Nat.zero_le y, ?_⟩
    rw [List.chain'_cons']
    exact ⟨fun y _ => by rw [hf]; omega, hchainf⟩
  have hchainB : List.Chain' (· ≤ ·)
      (update_progress "refine" 0 :: re.map (update_progress "refine")) := by
    rw [List.chain'_cons']
    constructor
    · intro y hy
      have := hmapg_ge y (mem_of_head_opt hy)
      rw [hg]
      omega
    · exact hchaing
  have hAle : ∀ x ∈ (0 :: update_progress "preview" 0
      :: pre.map (update_progress "preview")), x ≤ 50 := by
    intro x hx
    simp only [List.mem_cons] at hx
    rcases hx with rfl | rfl | hx
    · omega
    · rw [hf]; omega
    · exact hmapf_le x hx
  have hBle : ∀ x ∈ (update_progress "refine" 0
      :: re.map (update_progress "refine")), x ≤ 100 := by
    intro x hx
    simp only [List.mem_cons] at hx
    rcases hx with rfl | hx
    · rw [hg]; omega
    · exact hmapg_le x hx
  constructor
  · unfold progress_trace
    rw [List.chain'_append]
    refine ⟨?_, List.chain'_singleton 100, ?_⟩
    · rw [List.chain'_append]
      refine ⟨hchainA, hchainB, ?_⟩
      intro x hx y hy
      have hx50 := hAle x (mem_of_getLast_opt hx)
      have hyv : update_progress "refine" 0 = y := by simpa using hy
      rw [hg] at hyv
      omega
    · intro x hx y hy
      have hy100 : (100 : Nat) = y := by simpa using hy
      have hx100 : x ≤ 100 := by
        have hmem := mem_of_getLast_opt hx
        simp only [List.mem_append] at hmem
        rcases hmem with hA | hB
        · have := hAle x hA; omega
        · exact hBle x hB
      omega
  · intro q hq
    unfold progress_trace at hq
    simp only [List.mem_append, List.mem_cons, List.mem_singleton] at hq
    rcases hq with ((rfl | rfl | hq) | (rfl | hq)) | rfl | hq
    · omega
    · rw [hf]; omega
    · have := hmapf_le q hq; omega
    · rw [hg]; omega
    · exact hmapg_le q hq
    · omega
    · simp at hq

/-- Witness for progress_trace_monotone: a run whose preview reports 50 then
100 and whose refine reports 40 then 100 yields a monotone trace bounded by
100. -/
theorem progress_trace_monotone_w :
    List.Chain' (· ≤ ·) (progress_trace [50, 100] [40, 100]) ∧
    ∀ q ∈ progress_trace [50, 100] [40, 100], q ≤ 100 :=
  progress_trace_monotone [50, 100] [40, 100]
    (by simp) (by simp) (by simp) (by simp)

/-- Largest element of a list of rationals, folded from the first element as
numpy max does over vertex coordinates; 0 on an empty list (trimesh bounds
of an empty mesh are not meaningful and the pipeline never builds one). -/
def listMax : List ℚ → ℚ
  | [] => 0
  | x :: xs => xs.foldl max x

/-- Smallest element of a list of rationals, folded from the first element. -/
def listMin : List ℚ → ℚ
  | [] => 0
  | x :: xs => xs.foldl min x

/-- Axis extent: bounds[1] - bounds[0] on one coordinate axis. -/
def extent (vals : List ℚ) : ℚ := listMax vals - listMin vals

/-- Mesh width (X extent), from ModelConverter.get_dimensions
(src/backend/app/services/converter.py, lines 107-116): the mesh is its
vertex list, in exact rational arithmetic. -/
def width (m : List (ℚ × ℚ × ℚ)) : ℚ := extent (m.map fun v => v.1)

/-- Mesh depth (Y extent) of get_dimensions. -/
def depth (m : List (ℚ × ℚ × ℚ)) : ℚ := extent (m.map fun v => v.2.1)

/-- Mesh height (Z extent) of get_dimensions. -/
def height (m : List (ℚ × ℚ × ℚ)) : ℚ := extent (m.map fun v => v.2.2)

/-- ModelDimensions.max_dimension: max(width, depth, height). -/
def max_dimension (m : List (ℚ × ℚ × ℚ)) : ℚ :=
  max (max (width m) (depth m)) (height m)

/-- Uniform scaling mesh.apply_scale: every vertex coordinate is multiplied
by the factor. -/
def apply_scale (c : ℚ) (m : List (ℚ × ℚ × ℚ)) : List (ℚ × ℚ × ℚ) :=
  m.map fun v => (c * v.1, c * v.2.1, c * v.2.2)

/-- ModelConverter.scale_to_size of src/backend/app/services/converter.py
(lines 118-151), in the dimension="max" form used by convert: take the
largest bounding-box extent as current, raise ValueError("Mesh has zero
size") when it is exactly zero, otherwise scale uniformly by
target_size_mm / current. -/
def scale_to_size (m : List (ℚ × ℚ × ℚ)) (target_size_mm : ℚ) :
    Except String (List (ℚ × ℚ × ℚ)) :=
  let current := max_dimension m
  if current = 0 then .error "Mesh has zero size"
  else .ok (apply_scale (target_size_mm / current) m)

/-- Multiplication by a nonnegative factor commutes with the running max. -/
theorem foldl_max_mul (c : ℚ) (hc : 0 ≤ c) :
    ∀ (xs : List ℚ) (x : ℚ),
      (xs.map (fun y => c * y)).foldl max (c * x) = c * xs.foldl max x := by
  intro xs
  induction xs with
  | nil => intro x; rfl
  | cons a l ih =>
      intro x
      simp only [List.map, List.foldl]
      rw [← mul_max_of_nonneg x a hc]
      exact ih (max x a)

/-- Multiplication by a nonnegative factor commutes with the running min. -/
theorem foldl_min_mul (c : ℚ) (hc : 0 ≤ c) :
    ∀ (xs : List ℚ) (x : ℚ),
      (xs.map (fun y => c * y)).foldl min (c * x) = c * xs.foldl min x := by
  intro xs
  induction xs with
  | nil => intro x; rfl
  | cons a l ih =>
      intro x
      simp only [List.map, List.foldl]
      rw [← mul_min_of_nonneg x a hc]
      exact ih (min x a)

/-- Scaling a coordinate list scales its maximum. -/
theorem listMax_mul (c : ℚ) (hc : 0 ≤ c) (l : List ℚ) :
    listMax (l.map (fun y => c * y)) = c * listMax l := by
  cases l with
  | nil => simp [listMax]
  | cons x xs => simpa [listMax] using foldl_max_mul c hc xs x

/-- Scaling a coordinate list scales its minimum. -/
theorem listMin_mul (c : ℚ) (hc : 0 ≤ c) (l : List ℚ) :
    listMin (l.map (fun y => c * y)) = c * listMin l := by
  cases l with
  | nil => simp [listMin]
  | cons x xs => simpa [listMin] using foldl_min_mul c hc xs x

/-- Scaling a coordinate list scales its extent. -/
theorem extent_mul (c : ℚ) (hc : 0 ≤ c) (l : List ℚ) :
    extent (l.map (fun y => c * y)) = c * extent l := by
  rw [extent, extent, listMax_mul c hc, listMin_mul c hc, mul_sub]

/-- Uniform scaling multiplies the largest bounding-box dimension by the
factor. -/
theorem max_dimension_apply_scale (c : ℚ) (hc : 0 ≤ c)
    (m : List (ℚ × ℚ × ℚ)) :
    max_dimension (apply_scale c m) = c * max_dimension m := by
  have hx : width (apply_scale c m) = c * width m := by
    rw [width, width, apply_scale, List.map_map, ← extent_mul c hc, List.map_map]
    rfl
  have hy : depth (apply_scale c m) = c * depth m := by
    rw [depth, depth, apply_scale, List.map_map, ← extent_mul c hc, List.map_map]
    rfl
  have hz : height (apply_scale c m) = c * height m := by
    rw [height, height, apply_scale, List.map_map, ← extent_mul c hc, List.map_map]
    rfl
  rw [max_dimension, max_dimension, hx, hy, hz,
    ← mul_max_of_nonneg _ _ hc, ← mul_max_of_nonneg _ _ hc]

/-- The running min never exceeds its initial value. -/
theorem foldl_min_le_init : ∀ (xs : List ℚ) (x : ℚ), xs.foldl min x ≤ x := by
  intro xs
  induction xs with
  | nil => intro x; exact le_refl x
  | cons a l ih =>
      intro x
      exact le_trans (ih (min x a)) (min_le_left x a)

/-- The running max is at least its initial value. -/
theorem init_le_foldl_max : ∀ (xs : List ℚ) (x : ℚ), x ≤ xs.foldl max x := by
  intro xs
  induction xs with
  | nil => intro x; exact le_refl x
  | cons a l ih =>
      intro x
      exact le_trans (le_max_left x a) (ih (max x a))

/-- On a nonempty coordinate list the extent is nonnegative. -/
theorem extent_nonneg {l : List ℚ} (h : l ≠ []) : 0 ≤ extent l := by
  cases l with
  | nil => exact absurd rfl h
  | cons x xs =>
      rw [extent, listMax, listMin, sub_nonneg]
      exact le_trans (foldl_min_le_init xs x) (init_le_foldl_max xs x)

/-- On a nonempty mesh the largest bounding-box dimension is nonnegative. -/
theorem max_dimension_nonneg {m : List (ℚ × ℚ × ℚ)} (h : m ≠ []) :
    0 ≤ max_dimension m := by
  have hx : (m.map fun v => v.1) ≠ [] := by
    simpa using h
  refine le_trans (extent_nonneg hx) ?_
  exact le_trans (le_max_left (width m) (depth m)) (le_max_left _ (height m))

/-- C7: for every nonempty mesh and positive target size, scale_to_size
fails with the degenerate-geometry ValueError exactly when the largest
bounding-box extent is zero; otherwise it scales uniformly by
target divided by that extent, and the largest dimension of the result
equals the requested target exactly — in particular within the 1e-3 mm
tolerance.  Arithmetic is exact rational arithmetic. -/
theorem scale_to_size_exact (m : List (ℚ × ℚ × ℚ)) (target : ℚ)
    (hm : m ≠ []) (ht : 0 < target) :
    (max_dimension m = 0 →
      scale_to_size m target = .error "Mesh has zero size") ∧
    (max_dimension m ≠ 0 →
      ∃ m2, scale_to_size m target = .ok m2 ∧
        max_dimension m2 = target ∧
        |max_dimension m2 - target| ≤ 1 / 1000) := by
  constructor
  · intro h0
    simp [scale_to_size, h0]
  · intro hne
    have hpos : 0 < max_dimension m :=
      lt_of_le_of_ne (max_dimension_nonneg hm) (Ne.symm hne)
    have hc : 0 ≤ target / max_dimension m := le_of_lt (div_pos ht hpos)
    have hdim : max_dimension (apply_scale (target / max_dimension m) m) = target := by
      rw [max_dimension_apply_scale _ hc, div_mul_cancel₀ target hne]
    refine ⟨apply_scale (target / max_dimension m) m, ?_, hdim, ?_⟩
    · simp [scale_to_size, hne]
    · rw [hdim, sub_self, abs_zero]
      norm_num

/-- A concrete mesh: a box with extents 2, 1, 1. -/
def demoMesh : List (ℚ × ℚ × ℚ) := [(0, 0, 0), (2, 1, 1)]

/-- Witness for scale_to_size_exact: scaling the demo box to 100 mm yields a
mesh whose largest dimension is exactly 100. -/
theorem scale_to_size_exact_w :
    ∃ m2, scale_to_size demoMesh 100 = .ok m2 ∧
      max_dimension m2 = 100 ∧
      |max_dimension m2 - 100| ≤ 1 / 1000 :=
  (scale_to_size_exact demoMesh 100 (by decide) (by norm_num)).2
    (by norm_num [max_dimension, width, depth, height, extent, listMax, listMin,
      demoMesh, max_def])

/-- Bambu P1S build volume constants of ModelConverter
(src/backend/app/services/converter.py, lines 57-60). -/
def BUILD_PLATE_X : ℚ := 256

/-- Build volume Y bound. -/
def BUILD_PLATE_Y : ℚ := 256

/-- Build volume Z bound. -/
def BUILD_PLATE_Z : ℚ := 256

/-- Warning codes emitted by validate_printability, each carrying the
numeric payload interpolated into the Python message string. -/
inductive PrintWarning
  | not_watertight
  | inconsistent_winding
  | thin_dimension (min_dim : ℚ)
  | too_wide (w : ℚ)
  | too_deep (d : ℚ)
  | too_tall (h : ℚ)
  | high_triangle_count (n : Nat)
deriving Repr, DecidableEq

/-- Geometry attributes validate_printability reads from the trimesh object:
watertightness, winding consistency, the three dimensions and the face
count. -/
structure MeshProps where
  is_watertight : Bool
  is_winding_consistent : Bool
  width_mm : ℚ
  depth_mm : ℚ
  height_mm : ℚ
  face_count : Nat
deriving Repr, DecidableEq

/-- ModelConverter.validate_printability of
src/backend/app/services/converter.py (lines 170-195): a warnings list is
built by appending, in program order, a code for each triggered check. -/
def validate_printability (m : MeshProps) : List PrintWarning :=
  let warnings : List PrintWarning := []
  let warnings :=
    if m.is_watertight = false then warnings ++ [.not_watertight] else warnings
  let warnings :=
    if m.is_winding_consistent = false then warnings ++ [.inconsistent_winding]
    else warnings
  let min_dim := min (min m.width_mm m.depth_mm) m.height_mm
  let warnings :=
    if min_dim < 1 then warnings ++ [.thin_dimension min_dim] else warnings
  let warnings :=
    if BUILD_PLATE_X < m.width_mm then warnings ++ [.too_wide m.width_mm]
    else warnings
  let warnings :=
    if BUILD_PLATE_Y < m.depth_mm then warnings ++ [.too_deep m.depth_mm]
    else warnings
  let warnings :=
    if BUILD_PLATE_Z < m.height_mm then warnings ++ [.too_tall m.height_mm]
    else warnings
  let warnings :=
    if 500000 < m.face_count then warnings ++ [.high_triangle_count m.face_count]
    else warnings
  warnings

/-- Ordered warning list as the specification words it: one optional segment
per check, concatenated in the fixed order not-watertight, inconsistent
winding, thin dimension, width, depth, height, triangle count. -/
def spec_ordered_warnings (m : MeshProps) : List PrintWarning :=
  (if m.is_watertight = false then [.not_watertight] else [])
    ++ (if m.is_winding_consistent = false then [.inconsistent_winding] else [])
    ++ (if min (min m.width_mm m.depth_mm) m.height_mm < 1 then
          [.thin_dimension (min (min m.width_mm m.depth_mm) m.height_mm)] else [])
    ++ (if BUILD_PLATE_X < m.width_mm then [.too_wide m.width_mm] else [])
    ++ (if BUILD_PLATE_Y < m.depth_mm then [.too_deep m.depth_mm] else [])
    ++ (if BUILD_PLATE_Z < m.height_mm then [.too_tall m.height_mm] else [])
    ++ (if 500000 < m.face_count then [.high_triangle_count m.face_count] else [])

/-- Conditional append of a singleton pulled out of the if. -/
theorem append_ite_singleton {α : Type} (c : Prop) [Decidable c]
    (l : List α) (x : α) :
    (if c then l ++ [x] else l) = l ++ (if c then [x] else []) := by
  split <;> simp

/-- C8: printability validation is a deterministic function of the geometry
attributes — it is a pure function, so two runs on identical geometry give
the same list — and its output is exactly the concatenation, in the fixed
claimed order, of the optional warning segments for: not watertight,
inconsistent winding, dimension below the 1 mm floor, each build-volume
axis independently, and triangle count above 500000. -/
theorem validate_printability_ordered (m : MeshProps) :
    validate_printability m = spec_ordered_warnings m := by
  by_cases h1 : m.is_watertight = false <;>
  by_cases h2 : m.is_winding_consistent = false <;>
  by_cases h3 : min (min m.width_mm m.depth_mm) m.height_mm < 1 <;>
  by_cases h4 : BUILD_PLATE_X < m.width_mm <;>
  by_cases h5 : BUILD_PLATE_Y < m.depth_mm <;>
  by_cases h6 : BUILD_PLATE_Z < m.height_mm <;>
  by_cases h7 : 500000 < m.face_count <;>
  simp [validate_printability, spec_ordered_warnings, h1, h2, h3, h4, h5, h6, h7]

/-- Python value appearing in a tool-call argument or result dictionary. -/
inductive PyVal
  | str (s : String)
  | num (q : ℚ)
  | boolean (b : Bool)
deriving Repr, DecidableEq

/-- Python dictionary with string keys, as passed to and returned by tools. -/
abbrev PyDict : Type := List (String × PyVal)

/-- Dictionary lookup returning none for a missing key. -/
def lookupArg : PyDict → String → Option PyVal
  | [], _ => none
  | (k, v) :: rest, key => if k = key then some v else lookupArg rest key

/-- Subscript access args[key]: raises KeyError when the key is absent. -/
def getArg (args : PyDict) (key : String) : Except String PyVal :=
  match lookupArg args key with
  | none => .error ("KeyError: " ++ key)
  | some v => .ok v

/-- Defaulted access args.get(key, dflt). -/
def getArgD (args : PyDict) (key : String) (dflt : PyVal) : PyVal :=
  (lookupArg args key).getD dflt

/-- The five underlying tool implementations _execute_tool dispatches to
(PrintAssistant._generate_model, _check_status, _get_printer_status,
_start_print, _cancel_print), abstracted as functions whose Except.error
outcome stands for an exception raised during execution. -/
structure ToolImpls where
  generate_3d_model : PyVal → PyVal → PyVal → Except String PyDict
  check_model_status : PyVal → Except String PyDict
  get_printer_status : Except String PyDict
  start_print_tool : PyVal → Except String PyDict
  cancel_print_tool : Except String PyDict

/-- Body of the try block of PrintAssistant._execute_tool
(src/backend/app/agents/assistant.py, lines 244-264): dispatch on the tool
name, reading required arguments by subscript (so a missing key raises) and
optional ones with defaults style="cartoon" and size_inches=6.0; an unknown
name returns an error dictionary without raising. -/
def dispatch_tool (impl : ToolImpls) (name : String) (args : PyDict) :
    Except String PyDict :=
  if name = "generate_3d_model" then do
    let p ← getArg args "prompt"
    impl.generate_3d_model p (getArgD args "style" (.str "cartoon"))
      (getArgD args "size_inches" (.num 6))
  else if name = "check_model_status" then do
    let j ← getArg args "job_id"
    impl.check_model_status j
  else if name = "get_printer_status" then
    impl.get_printer_status
  else if name = "start_print" then do
    let j ← getArg args "job_id"
    impl.start_print_tool j
  else if name = "cancel_print" then
    impl.cancel_print_tool
  else
    .ok [("error", .str ("Unknown tool: " ++ name))]

/-- PrintAssistant._execute_tool: the dispatch wrapped in the
try-except-Exception handler that converts any raised exception e into the
result dictionary with key "error" and value str(e). -/
def execute_tool (impl : ToolImpls) (name : String) (args : PyDict) : PyDict :=
  match dispatch_tool impl name args with
  | .ok d => d
  | .error e => [("error", .str e)]

/-- C10: tool execution never propagates an exception: whenever the
dispatched implementation (or a missing required argument) raises,
execute_tool returns a dictionary carrying that error message under the
"error" key; an unknown tool name yields the unknown-tool error dictionary;
and a normal result is passed through unchanged.  In every case the result
is a plain dictionary, never a raise. -/
theorem execute_tool_never_raises (impl : ToolImpls) (name : String)
    (args : PyDict) :
    (∀ e, dispatch_tool impl name args = .error e →
      execute_tool impl name args = [("error", .str e)]) ∧
    (name ∉ ["generate_3d_model", "check_model_status", "get_printer_status",
        "start_print", "cancel_print"] →
      execute_tool impl name args
        = [("error", .str ("Unknown tool: " ++ name))]) ∧
    (∀ d, dispatch_tool impl name args = .ok d →
      execute_tool impl name args = d) := by
  refine ⟨?_, ?_, ?_⟩
  · intro e he
    simp [execute_tool, he]
  · intro hn
    simp only [List.mem_cons, List.mem_singleton, not_or] at hn
    obtain ⟨h1, h2, h3, h4, h5, _⟩ := hn
    simp [execute_tool, dispatch_tool, h1, h2, h3, h4, h5]
  · intro d hd
    simp [execute_tool, hd]

/-- Tool implementations that all raise, standing for arbitrary failing
tool bodies. -/
def failingImpls : ToolImpls :=
  { generate_3d_model := fun _ _ _ => .error "boom"
    check_model_status := fun _ => .error "boom"
    get_printer_status := .error "boom"
    start_print_tool := fun _ => .error "boom"
    cancel_print_tool := .error "boom" }

/-- Witness for execute_tool_never_raises: a raising printer-status tool is
converted to an error dictionary, and an unknown tool name produces the
unknown-tool error dictionary. -/
theorem execute_tool_never_raises_w :
    execute_tool failingImpls "get_printer_status" [] = [("error", .str "boom")] ∧
    execute_tool failingImpls "frobnicate" []
      = [("error", .str ("Unknown tool: " ++ "frobnicate"))] :=
  ⟨(execute_tool_never_raises failingImpls "get_printer_status" []).1 "boom" rfl,
   (execute_tool_never_raises failingImpls "frobnicate" []).2.1 (by decide)⟩
